import Mathlib

/-!
Verification of the `xantus` RAG pipeline against its specification.

This file shallowly embeds the parts of the code base reached by the
claims: the ingestion service (`src/xantus/services/ingest_service.py`),
the chat service (`src/xantus/services/chat_service.py`), the MCP tool
layer (`src/xantus/services/mcp_service.py`) and the SSE framing in the
chat router (`src/xantus/api/chat_router.py`).

Conventions:
* Python byte strings are `List Nat` (each entry `< 256`).
* Python `str` is Lean `String`; `str.split`-style helpers are defined
  on `List Char` and lifted.
* Machine integers do not occur except inside SHA-256, where 32-bit
  words are `Nat` reduced `% 2 ^ 32` at every arithmetic step.
* External collaborators (sentence splitter, directory reader, the LLM
  port, the vector retriever) are parameters of the embedded functions,
  exactly where the source calls into them.
* Similarity scores are floats in the source but are only copied and
  compared, never computed with; they are modelled as `Option Int`
  (`none` is Python `None`).
-/

namespace Xantus

/-! ## SHA-256 over byte lists (hashlib.sha256(...).hexdigest())

A direct functional implementation of FIPS 180-4, used by
`IngestService.ingest_file` to derive `document_id`. -/

namespace SHA256

/-- 32-bit truncation. -/
def m32 (x : Nat) : Nat := x % 2 ^ 32

/-- Right rotation of a 32-bit word by `n` bits. -/
def rotr (n x : Nat) : Nat := m32 (x / 2 ^ n + x % 2 ^ n * 2 ^ (32 - n))

/-- Logical right shift. -/
def shr (n x : Nat) : Nat := x / 2 ^ n

/-- Bitwise complement within 32 bits. -/
def compl32 (x : Nat) : Nat := Nat.xor x (2 ^ 32 - 1)

def ch (x y z : Nat) : Nat := Nat.xor (Nat.land x y) (Nat.land (compl32 x) z)

def maj (x y z : Nat) : Nat :=
  Nat.xor (Nat.xor (Nat.land x y) (Nat.land x z)) (Nat.land y z)

def bigSigma0 (x : Nat) : Nat := Nat.xor (Nat.xor (rotr 2 x) (rotr 13 x)) (rotr 22 x)

def bigSigma1 (x : Nat) : Nat := Nat.xor (Nat.xor (rotr 6 x) (rotr 11 x)) (rotr 25 x)

def smallSigma0 (x : Nat) : Nat := Nat.xor (Nat.xor (rotr 7 x) (rotr 18 x)) (shr 3 x)

def smallSigma1 (x : Nat) : Nat := Nat.xor (Nat.xor (rotr 17 x) (rotr 19 x)) (shr 10 x)

/-- The 64 round constants (FIPS 180-4 §4.2.2), written in decimal. -/
def K : List Nat :=
  [1116352408, 1899447441, 3049323471, 3921009573, 961987163,
   1508970993, 2453635748, 2870763221, 3624381080, 310598401,
   607225278, 1426881987, 1925078388, 2162078206, 2614888103,
   3248222580, 3835390401, 4022224774, 264347078, 604807628,
   770255983, 1249150122, 1555081692, 1996064986, 2554220882,
   2821834349, 2952996808, 3210313671, 3336571891, 3584528711,
   113926993, 338241895, 666307205, 773529912, 1294757372,
   1396182291, 1695183700, 1986661051, 2177026350, 2456956037,
   2730485921, 2820302411, 3259730800, 3345764771, 3516065817,
   3600352804, 4094571909, 275423344, 430227734, 506948616,
   659060556, 883997877, 958139571, 1322822218, 1537002063,
   1747873779, 1955562222, 2024104815, 2227730452, 2361852424,
   2428436474, 2756734187, 3204031479, 3329325298]

/-- The initial hash value H⁽⁰⁾ (FIPS 180-4 §5.3.3), in decimal. -/
def H0 : List Nat :=
  [1779033703, 3144134277, 1013904242, 2773480762,
   1359893119, 2600822924, 528734635, 1541459225]

/-- Big-endian bytes of a `Nat`, `n` bytes wide. -/
def beBytes : Nat → Nat → List Nat
  | 0, _ => []
  | n + 1, x => beBytes n (x / 256) ++ [x % 256]

/-- SHA-256 message padding: append `0x80`, zero bytes, then the
message length in bits as a 64-bit big-endian integer, reaching a
multiple of 64 bytes. -/
def pad (msg : List Nat) : List Nat :=
  let l := msg.length
  let zeros := (64 - (l + 9) % 64) % 64
  msg ++ 0x80 :: List.replicate zeros 0 ++ beBytes 8 (l * 8)

/-- Group a byte list into 32-bit big-endian words. -/
def toWords : List Nat → List Nat
  | b0 :: b1 :: b2 :: b3 :: rest =>
      (((b0 * 256 + b1) * 256 + b2) * 256 + b3) :: toWords rest
  | _ => []

/-- Split a list into chunks of 16 words (one 512-bit block each). -/
def toBlocks : List Nat → List (List Nat)
  | [] => []
  | w :: ws => (w :: ws).take 16 :: toBlocks ((w :: ws).drop 16)
termination_by ws => ws.length
decreasing_by
  simp only [List.drop_succ_cons, List.length_drop, List.length_cons]
  omega

/-- Extend the 16 block words to the 64-entry message schedule. -/
def schedule (block : List Nat) : Nat → List Nat
  | 0 => block
  | t + 1 =>
    let w := schedule block t
    let i := 16 + t
    w ++ [m32 (smallSigma1 (w.getD (i - 2) 0) + w.getD (i - 7) 0 +
               smallSigma0 (w.getD (i - 15) 0) + w.getD (i - 16) 0)]

/-- One round of the compression function on the working variables
`[a, b, c, d, e, f, g, h]`. -/
def round (w k : Nat) : List Nat → List Nat
  | [a, b, c, d, e, f, g, h] =>
    let t1 := m32 (h + bigSigma1 e + ch e f g + k + w)
    let t2 := m32 (bigSigma0 a + maj a b c)
    [m32 (t1 + t2), a, b, c, m32 (d + t1), e, f, g]
  | l => l

/-- Process one 512-bit block, updating the running hash. -/
def compress (h : List Nat) (block : List Nat) : List Nat :=
  let w := schedule block 48
  let v := (List.range 64).foldl (fun v t => round (w.getD t 0) (K.getD t 0) v) h
  (h.zip v).map fun p => m32 (p.1 + p.2)

/-- The SHA-256 digest of a byte string, as eight 32-bit words. -/
def sha256Words (msg : List Nat) : List Nat :=
  (toBlocks (toWords (pad msg))).foldl compress H0

/-- Lowercase hex digit for a value `< 16`. -/
def hexDigit (n : Nat) : Char := "0123456789abcdef".toList.getD n '0'

/-- `n` lowercase hex digits of `x`, most significant first. -/
def hexNat : Nat → Nat → List Char
  | 0, _ => []
  | n + 1, x => hexNat n (x / 16) ++ [hexDigit (x % 16)]

/-- `hashlib.sha256(msg).hexdigest()`: 64 lowercase hex characters. -/
def hexdigest (msg : List Nat) : String :=
  ⟨(sha256Words msg).foldr (fun w acc => hexNat 8 w ++ acc) []⟩

end SHA256

/-! ## Schemas (src/xantus/models/schemas.py)

Pydantic models, embedded as structures.  Roles are plain strings, as
the `Literal` annotation only constrains which strings occur. -/

structure DocumentInfo where
  document_id : String
  file_name : String
  num_chunks : Nat
  ingested_at : String
deriving Repr, DecidableEq

structure IngestResponse where
  document_id : String
  file_name : String
  num_chunks : Nat
  status : String
deriving Repr, DecidableEq

structure DeleteDocumentResponse where
  document_id : String
  status : String
deriving Repr, DecidableEq

/-! ## Ingestion service (src/xantus/services/ingest_service.py)

State: `document_metadata` (a Python dict, modelled as an association
list keyed by `document_id`), the vector store (the multiset of stored
chunk nodes, modelled as a list), and the storage directory
`./data/uploaded_docs` (a map from stored file name to raw bytes). -/

/-- A chunk node as stored in the vector store: its text plus the
metadata stamped by `ingest_file`. -/
structure ChunkNode where
  text : String
  document_id : String
  file_name : String
  chunk_index : Nat
  ingested_at : String
deriving Repr, DecidableEq

/-- The mutable state of `IngestService`. -/
structure IngestState where
  document_metadata : List (String × DocumentInfo)
  vector_store : List ChunkNode
  storage_dir : List (String × List Nat)
deriving Repr, DecidableEq

/-- Python dict assignment `d[k] = v`: replace the binding if the key
exists, else append. -/
def dictSet (k : String) (v : DocumentInfo) :
    List (String × DocumentInfo) → List (String × DocumentInfo)
  | [] => [(k, v)]
  | (k', v') :: rest => if k' = k then (k, v) :: rest else (k', v') :: dictSet k v rest

/-- Python dict `pop(k)`: drop the binding for `k`. -/
def dictPop (k : String) (d : List (String × DocumentInfo)) :
    List (String × DocumentInfo) :=
  d.filter fun p => p.1 ≠ k

/-- `document_id = hashlib.sha256(content_bytes).hexdigest()[:16]`
(ingest_service.py:131). -/
def documentIdOf (content_bytes : List Nat) : String :=
  (SHA256.hexdigest content_bytes).take 16

/-- The stored file name `f"{document_id}_{file_name}"`
(ingest_service.py:134). -/
def storedFileName (document_id file_name : String) : String :=
  document_id ++ "_" ++ file_name

/-- `IngestService.ingest_file` (ingest_service.py:112-187).

External collaborators appear as parameters exactly where the source
calls them: `reader` is `SimpleDirectoryReader(...).load_data()`
(bytes on disk to text), `splitter` is
`self.text_splitter.get_nodes_from_documents` (text to chunk texts),
and `now` is `datetime.utcnow().isoformat()`. -/
def ingest_file (reader : List Nat → String) (splitter : String → List String)
    (now : String) (st : IngestState) (file_name : String)
    (file_content : List Nat) : IngestResponse × IngestState :=
  let content_bytes := file_content
  let document_id := documentIdOf content_bytes
  let file_path := storedFileName document_id file_name
  let storage' := (file_path, content_bytes) ::
    st.storage_dir.filter fun p => p.1 ≠ file_path
  let text := reader content_bytes
  let pieces := splitter text
  let nodes := pieces.enum.map fun p =>
    { text := p.2, document_id := document_id, file_name := file_name,
      chunk_index := p.1, ingested_at := now }
  let metadata' := dictSet document_id
    { document_id := document_id, file_name := file_name,
      num_chunks := nodes.length, ingested_at := now } st.document_metadata
  ({ document_id := document_id, file_name := file_name,
     num_chunks := nodes.length, status := "success" },
   { document_metadata := metadata',
     vector_store := st.vector_store ++ nodes,
     storage_dir := storage' })

/-- `IngestService.delete_document` (ingest_service.py:203-260).

`chroma_delete_raises = true` models the vector-store-side delete
raising an exception (the `except` branch at line 243: the error is
logged and deletion continues); on success the ChromaDB collection
removes every chunk whose `file_name` matches (line 234).  The
`ValueError` raised for an unknown id is the `Except.error` case; the
state component of the result is the service state after the call. -/
def delete_document (chroma_delete_raises : Bool) (st : IngestState)
    (document_id : String) :
    Except String DeleteDocumentResponse × IngestState :=
  if h : (st.document_metadata.lookup document_id).isSome then
    let doc_info := (st.document_metadata.lookup document_id).get h
    let vector_store' :=
      if chroma_delete_raises then st.vector_store
      else st.vector_store.filter fun c => c.file_name ≠ doc_info.file_name
    let metadata' := dictPop document_id st.document_metadata
    let file_path := storedFileName document_id doc_info.file_name
    let storage' := st.storage_dir.filter fun p => p.1 ≠ file_path
    (Except.ok { document_id := document_id, status := "deleted" },
     { document_metadata := metadata', vector_store := vector_store',
       storage_dir := storage' })
  else
    (Except.error ("Document " ++ document_id ++ " not found"), st)

/-! ## Restart recovery (ingest_service.py:69-105)

`_load_metadata_from_disk` scans the storage directory and parses each
visible file name with `file_path.name.split("_", 1)`, re-registering
the document when the split yields two parts. -/

/-- Python `s.split(sep, 1)` restricted to a single-character
separator: `none` when the separator does not occur (Python returns a
one-element list), otherwise the parts before and after the first
occurrence. -/
def splitOnce (sep : Char) : List Char → Option (List Char × List Char)
  | [] => none
  | c :: cs =>
    if c = sep then some ([], cs)
    else (splitOnce sep cs).map fun p => (c :: p.1, p.2)

/-- The per-file parsing step of `_load_metadata_from_disk`: skip
hidden files (`name.startswith(".")`), then split the stored name on
the first underscore into `(document_id, file_name)`; `none` models
the `len(parts) == 2` check failing. -/
def parseStoredName (name : String) : Option (String × String) :=
  if name.toList.head? = some '.' then none
  else (splitOnce '_' name.toList).map fun p => (⟨p.1⟩, ⟨p.2⟩)

/-! ## Chat schemas (src/xantus/models/schemas.py, chat section) -/

structure ChatMessage where
  role : String
  content : String
deriving Repr, DecidableEq

/-- `ChatCompletionRequest`.  `temperature` is an opaque float passed
through to the LLM port; it is modelled as `Option Int` since it is
never computed with. -/
structure ChatCompletionRequest where
  messages : List ChatMessage
  use_context : Bool := true
  include_sources : Bool := false
  temperature : Option Int := none
  max_tokens : Option Nat := none
  stream : Bool := false
deriving Repr, DecidableEq

structure ChatChoice where
  index : Nat
  message : ChatMessage
  finish_reason : Option String := none
deriving Repr, DecidableEq

structure ChatUsage where
  prompt_tokens : Nat
  completion_tokens : Nat
  total_tokens : Nat
deriving Repr, DecidableEq

structure SourceCitation where
  file_name : String
  page_label : Option String := none
  chunk_index : Nat
  score : Int
  text : String
deriving Repr, DecidableEq

structure ChatCompletionResponse where
  id : String
  object : String := "chat.completion"
  created : Nat
  model : String
  choices : List ChatChoice
  usage : Option ChatUsage := none
  sources : Option (List SourceCitation) := none
deriving Repr, DecidableEq

/-- One entry of a stream chunk's `choices` list.  In the source this
is a raw dict `{"index": _, "delta": _, "finish_reason": _}`; the
delta dict is `{"content": s}` for partial chunks (`some s`) and `{}`
for the terminal chunk (`none`). -/
structure StreamChoice where
  index : Nat
  delta : Option String
  finish_reason : Option String
deriving Repr, DecidableEq

structure ChatStreamChunk where
  id : String
  object : String := "chat.completion.chunk"
  created : Nat
  model : String
  choices : List StreamChoice
deriving Repr, DecidableEq

/-- The field names of a serialized `ChatStreamChunk`
(`model_dump_json` emits exactly the declared pydantic fields,
schemas.py:103-110). -/
def chatStreamChunkFields : List String :=
  ["id", "object", "created", "model", "choices"]

/-- The field names of a serialized `ChatCompletionResponse`
(schemas.py:88-100); unlike the stream chunk schema it declares a
`sources` field. -/
def chatCompletionResponseFields : List String :=
  ["id", "object", "created", "model", "choices", "usage", "sources"]

structure ChunkRetrievalRequest where
  query : String
  top_k : Option Nat := none
deriving Repr, DecidableEq

structure ChunkMetadata where
  document_id : String
  file_name : String
  chunk_index : Nat
  score : Int
deriving Repr, DecidableEq

structure RetrievedChunk where
  text : String
  metadata : ChunkMetadata
deriving Repr, DecidableEq

structure ChunkRetrievalResponse where
  chunks : List RetrievedChunk
  query : String
deriving Repr, DecidableEq

/-! ## Chat service (src/xantus/services/chat_service.py)

The LlamaIndex retriever (`self.index.as_retriever(similarity_top_k=k)
.aretrieve(q)`) is an external capability port, passed as a parameter
`retriever : Nat → String → List NodeWithScore`; likewise the LLM port
(batch `llm.achat` and streaming `llm.astream_chat`). -/

/-- A LlamaIndex `NodeWithScore` as consumed by the service: the node
text, the metadata keys the service reads (each `Option`, since
`metadata.get` supplies a default), and the optional score. -/
structure NodeWithScore where
  text : String
  document_id : Option String := none
  file_name : Option String := none
  page_label : Option String := none
  chunk_index : Option Nat := none
  score : Option Int := none
deriving Repr, DecidableEq

/-- Python `x or 0.0` on an optional float (`node.score or 0.0`,
chat_service.py:194/293): `None` and `0.0` are falsy, so the result
is the score with `None` mapped to zero. -/
def pyOrZero : Option Int → Int
  | none => 0
  | some x => if x = 0 then 0 else x

/-- `str.join`: Python `sep.join(parts)`. -/
def joinSep (sep : String) : List String → String
  | [] => ""
  | [x] => x
  | x :: y :: rest => x ++ sep ++ joinSep sep (y :: rest)

/-- The context label for one retrieved node
(`f"[Source: {node.metadata.get('file_name', 'unknown')}]\n{node.text}"`,
chat_service.py:146). -/
def contextPart (n : NodeWithScore) : String :=
  "[Source: " ++ n.file_name.getD "unknown" ++ "]\n" ++ n.text

/-- `ChatService._retrieve_context` (chat_service.py:119-151): run the
retriever with the configured `similarity_top_k`, return `("" , [])`
when nothing is found, else the labelled fragments joined by blank
lines together with the nodes. -/
def retrieve_context (retriever : Nat → String → List NodeWithScore)
    (similarity_top_k : Nat) (query : String) :
    String × List NodeWithScore :=
  let nodes := retriever similarity_top_k query
  if nodes.isEmpty then ("", [])
  else (joinSep "\n\n" (nodes.map contextPart), nodes)

/-- The message-assembly prefix of `ChatService.chat_completion`
(chat_service.py:84-111): convert the request messages, and, when
`use_context` is set and a user message exists, retrieve context for
the last user message's content and prefix a single system message
when the context string is non-empty (Python `if context:`).  Returns
the (possibly augmented) messages and the retrieved nodes. -/
def contextStage (retriever : Nat → String → List NodeWithScore)
    (similarity_top_k : Nat) (request : ChatCompletionRequest) :
    List ChatMessage × List NodeWithScore :=
  let messages := request.messages
  if request.use_context then
    let user_messages := request.messages.filter fun m => m.role = "user"
    match user_messages.getLast? with
    | some lastUser =>
      let cr := retrieve_context retriever similarity_top_k lastUser.content
      if cr.1 ≠ "" then
        ({ role := "system",
           content := "Use the following context to answer the user's question:\n\n"
             ++ cr.1 } :: messages, cr.2)
      else (messages, cr.2)
    | none => (messages, [])
  else (messages, [])

/-- `ChatService._stream_completion` (chat_service.py:214-259): one
partial chunk per LLM delta, in order, then the final chunk with an
empty delta dict and `finish_reason = "stop"`. -/
def stream_completion (completion_id : String) (created_timestamp : Nat)
    (model : String) (deltas : List String) : List ChatStreamChunk :=
  deltas.map (fun d =>
    { id := completion_id, created := created_timestamp, model := model,
      choices := [{ index := 0, delta := some d, finish_reason := none }] })
  ++ [{ id := completion_id, created := created_timestamp, model := model,
        choices := [{ index := 0, delta := none, finish_reason := some "stop" }] }]

/-- The citation built for one retrieved node
(chat_service.py:189-197). -/
def toCitation (n : NodeWithScore) : SourceCitation :=
  { file_name := n.file_name.getD "unknown",
    page_label := n.page_label,
    chunk_index := n.chunk_index.getD 0,
    score := pyOrZero n.score,
    text := n.text }

/-- `ChatService._generate_completion` (chat_service.py:153-212),
with the batch LLM port `llmChat` supplying
`(await self.llm.achat(messages)).message.content`. -/
def generate_completion (llmChat : List ChatMessage → String)
    (completion_id : String) (created_timestamp : Nat) (model : String)
    (request : ChatCompletionRequest) (messages : List ChatMessage)
    (retrieved_nodes : List NodeWithScore) : ChatCompletionResponse :=
  let content := llmChat messages
  let choice : ChatChoice :=
    { index := 0, message := { role := "assistant", content := content },
      finish_reason := some "stop" }
  let sources :=
    if request.include_sources ∧ ¬retrieved_nodes.isEmpty then
      some (retrieved_nodes.map toCitation)
    else none
  { id := completion_id, created := created_timestamp, model := model,
    choices := [choice],
    usage := some { prompt_tokens := 0, completion_tokens := 0, total_tokens := 0 },
    sources := sources }

/-- `ChatService.chat_completion` (chat_service.py:69-117): context
stage, then dispatch on `request.stream` to the streaming or batch
path.  `llmStream` is the streaming LLM port
(`self.llm.astream_chat`), yielding the finite ordered delta
sequence. -/
def chat_completion (retriever : Nat → String → List NodeWithScore)
    (llmChat : List ChatMessage → String)
    (llmStream : List ChatMessage → List String)
    (similarity_top_k : Nat) (completion_id : String)
    (created_timestamp : Nat) (model : String)
    (request : ChatCompletionRequest) :
    ChatCompletionResponse ⊕ List ChatStreamChunk :=
  let staged := contextStage retriever similarity_top_k request
  if request.stream then
    Sum.inr (stream_completion completion_id created_timestamp model
      (llmStream staged.1))
  else
    Sum.inl (generate_completion llmChat completion_id created_timestamp model
      request staged.1 staged.2)

/-- `ChatService.retrieve_chunks` (chat_service.py:261-303).
`request.top_k or self.settings.rag.similarity_top_k` uses Python
falsiness: `None` (and `0`, which pydantic's `gt=0` already excludes)
selects the configured default. -/
def retrieve_chunks (retriever : Nat → String → List NodeWithScore)
    (similarity_top_k : Nat) (request : ChunkRetrievalRequest) :
    ChunkRetrievalResponse :=
  let top_k := match request.top_k with
    | none => similarity_top_k
    | some k => if k = 0 then similarity_top_k else k
  let nodes := retriever top_k request.query
  let chunks := nodes.map fun n =>
    { text := n.text,
      metadata :=
        { document_id := n.document_id.getD "unknown",
          file_name := n.file_name.getD "unknown",
          chunk_index := n.chunk_index.getD 0,
          score := pyOrZero n.score } : RetrievedChunk }
  { chunks := chunks, query := request.query }

/-! ## SSE framing (src/xantus/api/chat_router.py:43-54)

`stream_generator` yields one `data: {json}\n\n` frame per chunk and a
final literal `data: [DONE]\n\n` frame.  JSON serialization
(`chunk.model_dump_json()`) is pydantic's and is abstracted as a
parameter. -/

def sseFrames (serialize : ChatStreamChunk → String)
    (chunks : List ChatStreamChunk) : List String :=
  chunks.map (fun c => "data: " ++ serialize c ++ "\n\n") ++ ["data: [DONE]\n\n"]

/-! ## MCP tool layer (src/xantus/services/mcp_service.py)

A tool call sends one `tools/call` JSON-RPC request and blocks on one
response line.  Only the presence and payloads of the `result` and
`error` keys of that response are inspected; payloads are opaque and
modelled as strings. -/

/-- The JSON-RPC response read back for a `tools/call` request:
whether the object has a `result` key and/or an `error` key, with the
associated payloads. -/
structure RpcResponse where
  result : Option String := none
  error : Option String := none
deriving Repr, DecidableEq

/-- A Ready `MCPServer`: its cached tool catalog (the advertised tool
names) and the response its subprocess gives to the next `tools/call`
request. -/
structure MCPServer where
  name : String
  tools : List String
  reply : RpcResponse
deriving Repr, DecidableEq

/-- The errors a tool call can surface: `ValueError` for an
unregistered tool name (mcp_service.py:228) and `RuntimeError` with
the remote payload when the response carries an `error` field
(mcp_service.py:133). -/
inductive ToolCallError where
  | toolNotFound (tool_name : String)
  | toolExecutionError (payload : String)
deriving Repr, DecidableEq

/-- `MCPServer.call_tool` (mcp_service.py:108-137): return the
`result` payload when present, raise on an `error` field, and — the
`if/elif` having no `else` — fall through to Python's implicit
`return None` (`Except.ok none`) when the response has neither. -/
def MCPServer.call_tool (s : MCPServer) : Except ToolCallError (Option String) :=
  if h : s.reply.result.isSome then
    Except.ok (some (s.reply.result.get h))
  else if h : s.reply.error.isSome then
    Except.error (ToolCallError.toolExecutionError (s.reply.error.get h))
  else
    Except.ok none

/-- `MCPService.call_tool` (mcp_service.py:212-228): scan the Ready
servers in order for the first whose catalog contains `tool_name` and
delegate; `ValueError` when no server advertises the tool. -/
def MCPService.call_tool (servers : List MCPServer) (tool_name : String) :
    Except ToolCallError (Option String) :=
  match servers.find? (fun s => s.tools.contains tool_name) with
  | some s => s.call_tool
  | none => Except.error (ToolCallError.toolNotFound tool_name)

/-! ## Helper lemmas -/

/-- Looking up a key in a list from which every pair with that key has
been filtered out yields nothing. -/
theorem lookup_filter_ne {β : Type} (k : String) (l : List (String × β)) :
    (l.filter fun p => p.1 ≠ k).lookup k = none := by
  induction l with
  | nil => rfl
  | cons a rest ih =>
    by_cases hak : a.1 = k
    · simpa [List.filter_cons, hak] using ih
    · have hk : (k == a.1) = false := beq_eq_false_iff_ne.mpr (Ne.symm hak)
      simp only [List.filter_cons, decide_not, hak, decide_False, Bool.not_false,
        if_true, List.lookup, hk]
      simpa using ih

/-! ## Claim theorems -/

/-- Claim C1: for every input byte string, `ingest_file` computes
`document_id` as the first 16 hex characters of the SHA-256 digest of
the raw file bytes, and for byte-identical inputs the `document_id` is
identical across calls regardless of the supplied `file_name` (or any
other call context). -/
theorem c1_document_id_content_addressed
    (reader reader' : List Nat → String) (splitter splitter' : String → List String)
    (now now' : String) (st st' : IngestState) (file_name file_name' : String)
    (content : List Nat) :
    (ingest_file reader splitter now st file_name content).1.document_id
      = (SHA256.hexdigest content).take 16
    ∧ (ingest_file reader splitter now st file_name content).1.document_id
      = (ingest_file reader' splitter' now' st' file_name' content).1.document_id := by
  constructor
  · simp only [ingest_file, documentIdOf]
  · simp only [ingest_file, documentIdOf]

/-- Claim C4: deleting a `document_id` that is absent from the
registry fails with the not-found `ValueError` and leaves the whole
service state — registry, vector store and storage directory —
unchanged. -/
theorem c4_delete_missing_document_no_mutation
    (chroma_delete_raises : Bool) (st : IngestState) (document_id : String)
    (h : st.document_metadata.lookup document_id = none) :
    delete_document chroma_delete_raises st document_id
      = (Except.error ("Document " ++ document_id ++ " not found"), st) := by
  unfold delete_document
  simp [h]

theorem c4_delete_missing_document_no_mutation_witness :
    delete_document true ⟨[], [], []⟩ "deadbeefdeadbeef"
      = (Except.error ("Document " ++ "deadbeefdeadbeef" ++ " not found"),
         ⟨[], [], []⟩) :=
  c4_delete_missing_document_no_mutation true ⟨[], [], []⟩ "deadbeefdeadbeef" rfl

/-- Claim C5: deleting a registered `document_id` returns the
`"deleted"` status and removes both the registry entry and the stored
raw file, even when the vector-store-side delete raises
(`chroma_delete_raises = true`, in which case the vector store is
untouched and the failure is only logged): the outcome and the
removals are the same for both values of the flag, so the failure is
never surfaced as an error. -/
theorem c5_delete_tolerates_vector_store_failure
    (chroma_delete_raises : Bool) (st : IngestState) (document_id : String)
    (info : DocumentInfo)
    (h : st.document_metadata.lookup document_id = some info) :
    (delete_document chroma_delete_raises st document_id).1
      = Except.ok { document_id := document_id, status := "deleted" }
    ∧ (delete_document chroma_delete_raises st document_id).2.document_metadata
      = dictPop document_id st.document_metadata
    ∧ ((delete_document chroma_delete_raises st document_id).2.document_metadata.lookup
        document_id) = none
    ∧ (delete_document chroma_delete_raises st document_id).2.storage_dir
      = st.storage_dir.filter
          (fun p => p.1 ≠ storedFileName document_id info.file_name)
    ∧ ((delete_document chroma_delete_raises st document_id).2.storage_dir.lookup
        (storedFileName document_id info.file_name)) = none
    ∧ (chroma_delete_raises = true →
        (delete_document chroma_delete_raises st document_id).2.vector_store
          = st.vector_store) := by
  unfold delete_document
  simp only [h, Option.isSome_some, Option.get_some, dite_true]
  refine ⟨trivial, trivial, ?_, trivial, ?_, fun hb => by simp [hb]⟩
  · exact lookup_filter_ne _ _
  · exact lookup_filter_ne _ _

theorem c5_delete_tolerates_vector_store_failure_witness :
    (delete_document true
        ⟨[("aaaabbbbccccdddd", ⟨"aaaabbbbccccdddd", "f.txt", 1, "t"⟩)],
         [⟨"x", "aaaabbbbccccdddd", "f.txt", 0, "t"⟩],
         [("aaaabbbbccccdddd_f.txt", [104, 105])]⟩
        "aaaabbbbccccdddd").1
      = Except.ok ⟨"aaaabbbbccccdddd", "deleted"⟩ :=
  (c5_delete_tolerates_vector_store_failure true
    ⟨[("aaaabbbbccccdddd", ⟨"aaaabbbbccccdddd", "f.txt", 1, "t"⟩)],
     [⟨"x", "aaaabbbbccccdddd", "f.txt", 0, "t"⟩],
     [("aaaabbbbccccdddd_f.txt", [104, 105])]⟩
    "aaaabbbbccccdddd" ⟨"aaaabbbbccccdddd", "f.txt", 1, "t"⟩ (by decide)).1

/-- Claim C6: the chunks a successful ingest adds to the vector store
carry `chunk_index` metadata exactly `0, 1, ..., n - 1` in order (no
gaps, no repeats), and the reported `num_chunks` equals the number `n`
of chunks produced by the split. -/
theorem c6_chunk_indices_sequential
    (reader : List Nat → String) (splitter : String → List String)
    (now : String) (st : IngestState) (file_name : String) (content : List Nat) :
    (((ingest_file reader splitter now st file_name content).2.vector_store.drop
        st.vector_store.length).map ChunkNode.chunk_index)
      = List.range ((ingest_file reader splitter now st file_name content).1.num_chunks)
    ∧ (ingest_file reader splitter now st file_name content).1.num_chunks
      = ((ingest_file reader splitter now st file_name content).2.vector_store.drop
          st.vector_store.length).length := by
  unfold ingest_file
  simp only [List.drop_left, List.map_map, List.length_map]
  constructor
  · rw [List.enum_length]
    show List.map Prod.fst (splitter (reader content)).enum = _
    exact List.enum_map_fst _
  · simp [List.enum_length]

/-- Splitting on the first occurrence of a separator that is absent
from the prefix recovers the prefix and the suffix. -/
theorem splitOnce_append (sep : Char) (pre post : List Char)
    (h : ∀ c ∈ pre, c ≠ sep) :
    splitOnce sep (pre ++ sep :: post) = some (pre, post) := by
  induction pre with
  | nil => simp [splitOnce]
  | cons c cs ih =>
    have hc : c ≠ sep := h c (List.mem_cons_self c cs)
    simp [splitOnce, hc, ih fun x hx => h x (List.mem_cons_of_mem c hx)]

theorem hex_chars_ne_underscore :
    ∀ c ∈ "0123456789abcdef".toList, c ≠ '_' := by decide

theorem hex_chars_ne_dot :
    ∀ c ∈ "0123456789abcdef".toList, c ≠ '.' := by decide

/-- Claim C10: for a `document_id` of 16 lowercase hex characters and
a non-empty `file_name` (underscores allowed), encoding the stored
name as `{document_id}_{file_name}` and parsing it back the way
restart recovery does — skip hidden files, split on the first
underscore — recovers exactly the original pair, so recovery
re-registers the document under its original id and name. -/
theorem c10_stored_name_roundtrip (document_id file_name : String)
    (hlen : document_id.length = 16)
    (hhex : ∀ c ∈ document_id.toList, c ∈ "0123456789abcdef".toList)
    (hne : file_name ≠ "") :
    parseStoredName (storedFileName document_id file_name)
      = some (document_id, file_name) := by
  have hdata : (storedFileName document_id file_name).toList
      = document_id.toList ++ '_' :: file_name.toList := by
    simp [storedFileName, String.toList, String.data_append]
  have hlen' : document_id.toList.length = 16 := hlen
  have hnil : document_id.toList ≠ [] := by
    intro h0
    rw [h0] at hlen'
    simp at hlen'
  obtain ⟨c0, cs, hcons⟩ := List.exists_cons_of_ne_nil hnil
  have hc0 : c0 ≠ '.' :=
    hex_chars_ne_dot c0 (hhex c0 (by rw [hcons]; exact List.mem_cons_self _ _))
  unfold parseStoredName
  rw [hdata, hcons]
  have hcond : ¬((c0 :: (cs ++ '_' :: file_name.toList)).head? = some '.') := by
    simp [hc0]
  rw [if_neg (by simpa using hcond)]
  have hsplit : splitOnce '_' ((c0 :: cs) ++ '_' :: file_name.toList)
      = some (c0 :: cs, file_name.toList) := by
    refine splitOnce_append '_' (c0 :: cs) file_name.toList ?_
    intro c hcmem
    exact hex_chars_ne_underscore c (hhex c (by rw [hcons]; exact hcmem))
  rw [hsplit]
  simp
  rw [← hcons]
  rfl

theorem c10_stored_name_roundtrip_witness :
    parseStoredName (storedFileName "0123456789abcdef" "my_report_v2.txt")
      = some ("0123456789abcdef", "my_report_v2.txt") :=
  c10_stored_name_roundtrip "0123456789abcdef" "my_report_v2.txt"
    (by decide) (by decide) (by decide)

/-- Claim C3 (code bug): `call_tool` behaves as claimed on a sole
Ready server when the remote response carries `result` (the result is
returned), on an unregistered name (`ToolNotFound` via `ValueError`)
and on a response carrying `error` (`ToolExecutionError` via
`RuntimeError`); but a malformed remote response with neither
`result` nor `error` falls through `MCPServer.call_tool`'s
`if`/`elif` to Python's implicit `return None` and IS silently
accepted as a successful `None` result, contradicting the claim's
last conjunct. -/
theorem c3_malformed_response_silently_accepted :
    MCPService.call_tool [⟨"srv", ["echo"], ⟨none, none⟩⟩] "echo"
      = Except.ok none
  ∧ MCPService.call_tool [⟨"srv", ["echo"], ⟨some "payload", none⟩⟩] "echo"
      = Except.ok (some "payload")
  ∧ MCPService.call_tool [⟨"srv", ["echo"], ⟨none, none⟩⟩] "missing"
      = Except.error (ToolCallError.toolNotFound "missing")
  ∧ MCPService.call_tool [⟨"srv", ["echo"], ⟨none, some "boom"⟩⟩] "echo"
      = Except.error (ToolCallError.toolExecutionError "boom") :=
  ⟨rfl, rfl, rfl, rfl⟩

/-- Claim C2: for every streaming request the orchestrator forwards
the LLM deltas in arrival order as partial chunks (`finish_reason`
absent, delta dict carrying the text), then emits exactly one
terminal chunk — the last — whose delta dict is empty and whose
`finish_reason` is `"stop"`; and the SSE frame sequence is one
`data:` frame per chunk, ending with the serialized terminal chunk
followed by the literal `data: [DONE]` sentinel frame. -/
theorem c2_stream_order_terminal_done (completion_id : String)
    (created_timestamp : Nat) (model : String) (deltas : List String)
    (serialize : ChatStreamChunk → String) :
    (stream_completion completion_id created_timestamp model deltas).dropLast.map
        ChatStreamChunk.choices
      = deltas.map (fun d => [{ index := 0, delta := some d, finish_reason := none }])
    ∧ (stream_completion completion_id created_timestamp model deltas).getLast?
      = some { id := completion_id, created := created_timestamp, model := model,
               choices := [{ index := 0, delta := none, finish_reason := some "stop" }] }
    ∧ ((stream_completion completion_id created_timestamp model deltas).countP
        (fun c => c.choices.any fun ch => ch.finish_reason == some "stop")) = 1
    ∧ sseFrames serialize (stream_completion completion_id created_timestamp model deltas)
      = (deltas.map fun d => "data: " ++ serialize
            { id := completion_id, created := created_timestamp, model := model,
              choices := [{ index := 0, delta := some d, finish_reason := none }] } ++ "\n\n")
        ++ ["data: " ++ serialize
              { id := completion_id, created := created_timestamp, model := model,
                choices := [{ index := 0, delta := none, finish_reason := some "stop" }] }
            ++ "\n\n",
            "data: [DONE]\n\n"] := by
  refine ⟨?_, ?_, ?_, ?_⟩
  · simp [stream_completion, List.dropLast_concat, List.map_map]
  · simp [stream_completion, List.getLast?_concat]
  · simp [stream_completion, List.countP_append, List.countP_map, List.countP_eq_zero,
      List.countP_cons, Function.comp]
  · simp [stream_completion, sseFrames, List.map_append, List.map_map]

/-- A context fragment label is at least 11 characters long. -/
theorem contextPart_length (n : NodeWithScore) :
    11 ≤ (contextPart n).length := by
  have h9 : ("[Source: " : String).length = 9 := rfl
  have h2 : ("]\n" : String).length = 2 := rfl
  unfold contextPart
  simp [String.length_append, h9, h2]
  omega

theorem joinSep_contextParts_pos (ns : List NodeWithScore) (h : ns ≠ []) :
    0 < (joinSep "\n\n" (ns.map contextPart)).length := by
  match ns with
  | [n] =>
    simp only [List.map_cons, List.map_nil, joinSep]
    have := contextPart_length n
    omega
  | n :: m :: rest =>
    simp only [List.map_cons, joinSep]
    have := contextPart_length n
    simp [String.length_append]
    omega

/-- Joining at least one labelled fragment yields a non-empty context
string, so the Python `if context:` branch is taken. -/
theorem joinSep_contextParts_ne_empty (ns : List NodeWithScore) (h : ns ≠ []) :
    joinSep "\n\n" (ns.map contextPart) ≠ "" := by
  intro he
  have := joinSep_contextParts_pos ns h
  rw [he] at this
  simp at this

/-- Claim C7: the context stage runs only when `use_context` is set
and a user message exists; the retrieval query is the content of the
last user-role message; with retrieved fragments, exactly one
system-role message labelling each fragment's text with its source
file name is prefixed to the conversation; with no fragments the
messages pass through unchanged and no error occurs. -/
theorem c7_context_stage (retriever : Nat → String → List NodeWithScore)
    (similarity_top_k : Nat) (request : ChatCompletionRequest) :
    (request.use_context = false →
        contextStage retriever similarity_top_k request = (request.messages, []))
  ∧ ((request.messages.filter fun m => m.role = "user") = [] →
        contextStage retriever similarity_top_k request = (request.messages, []))
  ∧ (∀ lastUser,
      (request.messages.filter fun m => m.role = "user").getLast? = some lastUser →
      request.use_context = true →
      (retriever similarity_top_k lastUser.content = [] →
          contextStage retriever similarity_top_k request = (request.messages, []))
      ∧ ∀ n ns, retriever similarity_top_k lastUser.content = n :: ns →
          contextStage retriever similarity_top_k request
            = ({ role := "system",
                 content := "Use the following context to answer the user's question:\n\n"
                   ++ joinSep "\n\n" ((n :: ns).map contextPart) } :: request.messages,
               n :: ns)) := by
  refine ⟨?_, ?_, ?_⟩
  · intro h
    simp [contextStage, h]
  · intro h
    by_cases huc : request.use_context
    · simp [contextStage, huc, h]
    · simp [contextStage, huc]
  · intro lastUser hlast huc
    constructor
    · intro hret
      simp [contextStage, huc, hlast, retrieve_context, hret]
    · intro n ns hret
      have hnm : joinSep "\n\n" ((n :: ns).map contextPart) ≠ "" :=
        joinSep_contextParts_ne_empty (n :: ns) (by simp)
      simp only [List.map_cons] at hnm
      simp [contextStage, huc, hlast, retrieve_context, hret, hnm]

theorem c7_context_stage_witness :
    contextStage (fun _ _ => [⟨"hello", none, some "f.txt", none, none, some 5⟩]) 3
        ⟨[⟨"user", "What is X?"⟩], true, false, none, none, false⟩
      = ({ role := "system",
           content := "Use the following context to answer the user's question:\n\n"
             ++ joinSep "\n\n"
                 ([⟨"hello", none, some "f.txt", none, none, some 5⟩].map contextPart) }
          :: [⟨"user", "What is X?"⟩],
         [⟨"hello", none, some "f.txt", none, none, some 5⟩]) :=
  ((c7_context_stage (fun _ _ => [⟨"hello", none, some "f.txt", none, none, some 5⟩]) 3
      ⟨[⟨"user", "What is X?"⟩], true, false, none, none, false⟩).2.2
    ⟨"user", "What is X?"⟩ (by decide) rfl).2
    ⟨"hello", none, some "f.txt", none, none, some 5⟩ [] rfl

/-- Claim C8: `retrieve_chunks` returns at most `k` fragments for an
explicit `top_k = k > 0`, in non-increasing score order whenever the
retriever port honours its ranking contract; an omitted `top_k` is
the same call with the configured `similarity_top_k`; and an empty
retrieval is a successful response with an empty chunk list. -/
theorem c8_retrieve_chunks_top_k (retriever : Nat → String → List NodeWithScore)
    (similarity_top_k : Nat)
    (hlen : ∀ k q, (retriever k q).length ≤ k)
    (hsort : ∀ k q, (retriever k q).Chain' fun a b => pyOrZero b.score ≤ pyOrZero a.score)
    (query : String) (k : Nat) (hk : 0 < k) :
    ((retrieve_chunks retriever similarity_top_k ⟨query, some k⟩).chunks.length ≤ k)
  ∧ ((retrieve_chunks retriever similarity_top_k ⟨query, some k⟩).chunks.Chain'
        fun a b => b.metadata.score ≤ a.metadata.score)
  ∧ (retrieve_chunks retriever similarity_top_k ⟨query, none⟩
        = retrieve_chunks retriever similarity_top_k ⟨query, some similarity_top_k⟩)
  ∧ (retriever k query = [] →
        retrieve_chunks retriever similarity_top_k ⟨query, some k⟩
          = { chunks := [], query := query }) := by
  have hk0 : k ≠ 0 := by omega
  refine ⟨?_, ?_, ?_, ?_⟩
  · simp only [retrieve_chunks, hk0, if_false, List.length_map, if_neg hk0]
    exact hlen k query
  · simp only [retrieve_chunks, hk0, if_neg hk0, List.chain'_map]
    exact hsort k query
  · simp [retrieve_chunks]
  · intro h
    simp [retrieve_chunks, hk0, h]

theorem c8_retrieve_chunks_top_k_witness :
    ((retrieve_chunks (fun _ _ => []) 5 ⟨"q", some 3⟩).chunks.length ≤ 3)
  ∧ ((retrieve_chunks (fun _ _ => []) 5 ⟨"q", some 3⟩).chunks.Chain'
        fun a b => b.metadata.score ≤ a.metadata.score)
  ∧ (retrieve_chunks (fun _ _ => []) 5 ⟨"q", none⟩
        = retrieve_chunks (fun _ _ => []) 5 ⟨"q", some 5⟩)
  ∧ ((fun _ _ => ([] : List NodeWithScore)) 3 "q" = [] →
        retrieve_chunks (fun _ _ => []) 5 ⟨"q", some 3⟩
          = { chunks := [], query := "q" }) :=
  c8_retrieve_chunks_top_k (fun _ _ => []) 5 (fun k _ => by simp)
    (fun _ _ => by simp) "q" 3 (by decide)

/-- Claim C9: a streaming request takes the streaming path, whose
chunks are serialized from the `ChatStreamChunk` schema, which has no
`sources` field (the batch response schema does); and the streamed
output does not depend on `include_sources` at all, even when
fragments were retrieved for context. -/
theorem c9_stream_has_no_sources (retriever : Nat → String → List NodeWithScore)
    (llmChat : List ChatMessage → String) (llmStream : List ChatMessage → List String)
    (similarity_top_k : Nat) (completion_id : String) (created_timestamp : Nat)
    (model : String) (request : ChatCompletionRequest)
    (hstream : request.stream = true) :
    chat_completion retriever llmChat llmStream similarity_top_k completion_id
        created_timestamp model request
      = Sum.inr (stream_completion completion_id created_timestamp model
          (llmStream (contextStage retriever similarity_top_k request).1))
  ∧ "sources" ∉ chatStreamChunkFields
  ∧ "sources" ∈ chatCompletionResponseFields
  ∧ chat_completion retriever llmChat llmStream similarity_top_k completion_id
        created_timestamp model { request with include_sources := true }
      = chat_completion retriever llmChat llmStream similarity_top_k completion_id
        created_timestamp model { request with include_sources := false } := by
  refine ⟨?_, ?_, ?_, ?_⟩
  · simp [chat_completion, hstream]
  · decide
  · decide
  · simp [chat_completion, hstream, contextStage]

theorem c9_stream_has_no_sources_witness :
    chat_completion (fun _ _ => []) (fun _ => "") (fun _ => ["Hi", " there"]) 3
        "cid" 7 "m" ⟨[⟨"user", "hey"⟩], true, true, none, none, true⟩
      = Sum.inr (stream_completion "cid" 7 "m"
          ((fun _ => ["Hi", " there"])
            (contextStage (fun _ _ => []) 3
              ⟨[⟨"user", "hey"⟩], true, true, none, none, true⟩).1))
  ∧ "sources" ∉ chatStreamChunkFields
  ∧ "sources" ∈ chatCompletionResponseFields
  ∧ chat_completion (fun _ _ => []) (fun _ => "") (fun _ => ["Hi", " there"]) 3
        "cid" 7 "m"
        { (⟨[⟨"user", "hey"⟩], true, true, none, none, true⟩ : ChatCompletionRequest)
          with include_sources := true }
      = chat_completion (fun _ _ => []) (fun _ => "") (fun _ => ["Hi", " there"]) 3
        "cid" 7 "m"
        { (⟨[⟨"user", "hey"⟩], true, true, none, none, true⟩ : ChatCompletionRequest)
          with include_sources := false } :=
  c9_stream_has_no_sources (fun _ _ => []) (fun _ => "") (fun _ => ["Hi", " there"]) 3
    "cid" 7 "m" ⟨[⟨"user", "hey"⟩], true, true, none, none, true⟩ rfl

end Xantus
